import Mathlib

/-!
Shallow embedding of `src/handler.py` (RunPod serverless handler for
Chatterbox TTS) and proofs about its request pipeline.

External capabilities (the HTTP client, the Python `float()` string parser,
the ChatterboxTTS engine, torchaudio/pydub encoding and base64) are modelled
as an explicit environment `Env` of pure functions; the process-wide mutable
state (the `VOICE_CACHE` dict, the engine's `self.conds` slot, the `MODEL`
global) is threaded as an explicit `WorldState`.  A Python function that can
raise is modelled as returning `Except String _`; the handler's own return
value distinguishes a returned dict (`Except.ok`) from an uncaught raised
exception (`Except.error`).  Call counts of the expensive external steps are
recorded as lists of call arguments in the state, so that "exactly once" and
"no engine call" properties are statable.
-/

/-- A JSON-like value as found in a RunPod job input.  Only the shapes the
handler can meet are modelled: strings, numbers (Python floats modelled as
rationals) and `None`/missing. -/
inductive JVal where
  | jnull : JVal
  | jstr (s : String) : JVal
  | jnum (q : ℚ) : JVal
deriving DecidableEq, Repr

/-- Python truthiness (`if not text:` / `if audio_url:`) for the modelled
JSON values: `None` is falsy, `""` is falsy, `0.0` is falsy. -/
def truthy : JVal → Bool
  | .jnull => false
  | .jstr s => s != ""
  | .jnum q => q != 0

/-- Whether `v[:100]` (line 105 of the source, inside an f-string) succeeds:
slicing works on strings, raises `TypeError` on `None` and floats. -/
def sliceable : JVal → Bool
  | .jstr _ => true
  | _ => false

/-- The result of a successful `requests.get`: HTTP status, the
`content-type` header (empty string when the header is absent, matching
`response.headers.get("content-type", "")`), and the body bytes. -/
structure FetchResponse where
  status : Nat
  contentType : String
  content : List Nat
deriving DecidableEq, Repr

/-- The external capabilities the handler calls into, as pure functions.
`Except.error` models a raised Python exception inside the capability. -/
structure Env where
  /-- `requests.get(url, timeout=30)`: network-level failure is `.error`. -/
  fetch : String → Except String FetchResponse
  /-- Python `float(s)` on a string argument: `none` models a raised
  `ValueError` (e.g. `float("abc")`). -/
  pyFloatStr : String → Option ℚ
  /-- The outcome of `ChatterboxTTS.from_pretrained` on this worker. -/
  loadResult : Except String Unit
  /-- `tempfile.NamedTemporaryFile(suffix=ext, delete=False).name`. -/
  tempName : String → String
  /-- `model.prepare_conditionals(voice_path, exaggeration=...)`. -/
  prepare : String → ℚ → Except String Unit
  /-- `model.generate(text, exaggeration, temperature, cfg_weight)`; also
  takes the engine's current `self.conds` slot, which `generate` reuses. -/
  generate : JVal → ℚ → ℚ → ℚ → Option (String × ℚ) → Except String (List ℚ)
  /-- `model.sr`, the engine's fixed sample rate. -/
  sr : Nat
  /-- `ta.save(buffer, wav, model.sr, format="wav")` followed by reading the
  buffer: waveform and sample rate to WAV container bytes. -/
  encodeWav : List ℚ → Nat → Except String (List Nat)
  /-- `AudioSegment.from_wav(...).export(buffer, format="mp3", bitrate=...)`:
  WAV container bytes and a bitrate string to MP3 container bytes. -/
  encodeMp3 : List Nat → String → Except String (List Nat)
  /-- `base64.b64encode(bytes).decode("utf-8")`. -/
  b64 : List Nat → String

/-- The process-wide mutable state: `VOICE_CACHE`, the engine's single
`self.conds` slot (path and exaggeration last prepared), whether `MODEL` is
loaded, and logs of the calls made to the expensive external steps. -/
structure WorldState where
  voiceCache : List (JVal × String)
  engineConds : Option (String × ℚ)
  modelLoaded : Bool
  fetchCalls : List String
  prepareCalls : List (String × ℚ)
  generateCalls : List (JVal × ℚ × ℚ × ℚ)
deriving DecidableEq, Repr

/-- The state at worker cold start: empty cache, no conditioning, model not
yet loaded, no calls made. -/
def initState : WorldState :=
  { voiceCache := [], engineConds := none, modelLoaded := false,
    fetchCalls := [], prepareCalls := [], generateCalls := [] }

/-- A RunPod job: `job["input"]` as an association list of fields. -/
structure Job where
  input : List (String × JVal)
deriving DecidableEq, Repr

/-- `job_input.get(key)`: `none` when the field is absent. -/
def jget (input : List (String × JVal)) (k : String) : Option JVal :=
  input.lookup k

/-- Substring test, Python's `needle in hay` on strings. -/
def containsSub (hay needle : String) : Bool :=
  decide (List.IsInfix needle.toList hay.toList)

/-- Python `str.lower()` (ASCII case folding; the strings the handler
lowercases are format names and URLs). -/
def lowerStr (s : String) : String :=
  String.mk (s.toList.map Char.toLower)

/-- The characters before the first question mark, i.e. `split("?")[0]`. -/
def takeUntilQm : List Char → List Char
  | [] => []
  | c :: cs => if c == '?' then [] else c :: takeUntilQm cs

/-- Python `str.endswith(suffix)`. -/
def suffixOf (suffix s : String) : Bool :=
  decide (List.IsSuffix suffix.toList s.toList)

/-- `url.lower().split("?")[0]` from lines 67 and 69 of the source. -/
def stripQuery (url : String) : String :=
  String.mk (takeUntilQm (lowerStr url).toList)

/-- Python `float(v)` on a job-input value: numbers pass through, strings go
through the `float()` string parser, `None` raises `TypeError` (`none`). -/
def pyFloat (env : Env) : JVal → Option ℚ
  | .jnum q => some q
  | .jstr s => env.pyFloatStr s
  | .jnull => none

/-- Python `v.lower()`: succeeds on strings, raises `AttributeError`
(`none`) on anything else. -/
def pyLower : JVal → Option String
  | .jstr s => some (lowerStr s)
  | _ => none

/-- File-extension classification of the fetched reference, lines 66-72 of
the source: mp3 evidence (content-type containing "mp3" or a `.mp3` URL
suffix) is checked first, then wav evidence, else default `.mp3`. -/
def classifyExt (content_type url : String) : String :=
  if containsSub content_type "mp3" || suffixOf ".mp3" (stripQuery url) then
    ".mp3"
  else if containsSub content_type "wav" || suffixOf ".wav" (stripQuery url) then
    ".wav"
  else
    ".mp3"

/-- The mp3 evidence of the first branch of `classifyExt`, named so the
classification order can be stated. -/
def mp3Evidence (content_type url : String) : Bool :=
  containsSub content_type "mp3" || suffixOf ".mp3" (stripQuery url)

/-- The wav evidence of the second branch of `classifyExt`. -/
def wavEvidence (content_type url : String) : Bool :=
  containsSub content_type "wav" || suffixOf ".wav" (stripQuery url)

/-- The classification order as the spec's words describe it (spec §4.1:
"explicit format inferred from the HTTP content-type header, else the URL's
file-extension suffix, else default to a compressed audio format"), for
comparison with `classifyExt`. -/
def classifyExtSpec (content_type url : String) : String :=
  if containsSub content_type "mp3" then ".mp3"
  else if containsSub content_type "wav" then ".wav"
  else if suffixOf ".mp3" (stripQuery url) then ".mp3"
  else if suffixOf ".wav" (stripQuery url) then ".wav"
  else ".mp3"

/-- `load_model()`, lines 33-45: a no-op when `MODEL` is already set, else
the outcome of `ChatterboxTTS.from_pretrained`.  `.error` is a raised
exception (the call sits outside the handler's `try`). -/
def load_model (env : Env) (s : WorldState) : Except String WorldState :=
  if s.modelLoaded then .ok s
  else
    match env.loadResult with
    | .error e => .error e
    | .ok _ => .ok { s with modelLoaded := true }

/-- `get_voice_ref(url, model, exaggeration)`, lines 48-87: on a cache hit
return immediately; on a miss, `requests.get` the url,
`raise_for_status()`, classify the extension, save to a temp file, run
`prepare_conditionals`, and only then record the key in `VOICE_CACHE`.
The returned state always reflects the calls made before any raise. -/
def get_voice_ref (env : Env) (url : JVal) (exaggeration : ℚ)
    (s : WorldState) : Except String Unit × WorldState :=
  if (s.voiceCache.lookup url).isSome then
    (.ok (), s)
  else
    match url with
    | .jstr ustr =>
      let s1 := { s with fetchCalls := ustr :: s.fetchCalls }
      match env.fetch ustr with
      | .error e => (.error e, s1)
      | .ok resp =>
        if 400 ≤ resp.status ∧ resp.status < 600 then
          (.error ("HTTP error " ++ toString resp.status), s1)
        else
          let voice_path := env.tempName (classifyExt resp.contentType ustr)
          let s2 := { s1 with prepareCalls := (voice_path, exaggeration) :: s1.prepareCalls }
          match env.prepare voice_path exaggeration with
          | .error e => (.error e, s2)
          | .ok _ =>
            (.ok (), { s2 with
                        engineConds := some (voice_path, exaggeration),
                        voiceCache := (url, voice_path) :: s2.voiceCache })
    | _ => (.error "InvalidURL: url is not a string", s)

/-- The handler's returned dict: either the success shape
`{audio_base64, format, sample_rate}` or the `{error}` shape. -/
inductive HandlerResult where
  | success (audio_base64 : String) (format : String) (sample_rate : Nat)
  | error (msg : String)
deriving DecidableEq, Repr

/-- Lines 134-146: always write the waveform to a WAV container first; if
the requested format is `"mp3"`, re-encode that container at bitrate
`"192k"`; base64-encode the final container bytes. -/
def encode_output (env : Env) (wav : List ℚ) (output_format : String) :
    Except String String :=
  match env.encodeWav wav env.sr with
  | .error e => .error e
  | .ok wav_bytes =>
    if output_format = "mp3" then
      match env.encodeMp3 wav_bytes "192k" with
      | .error e => .error e
      | .ok mp3_bytes => .ok (env.b64 mp3_bytes)
    else
      .ok (env.b64 wav_bytes)

/-- The body of the handler's `try` block, lines 115-154: voice preparation
(when a url is given), `model.generate`, output encoding, and the success
dict.  An `.error` here is an exception that the handler's `except` clause
will convert to the `{error}` shape; the state records the calls made
before the raise. -/
def synth_pipeline (env : Env) (text audio_url : JVal)
    (exaggeration temperature cfg_weight : ℚ) (output_format : String)
    (s : WorldState) : Except String HandlerResult × WorldState :=
  let prep : Except String Unit × WorldState :=
    if truthy audio_url then get_voice_ref env audio_url exaggeration s
    else (.ok (), s)
  match prep with
  | (.error e, s1) => (.error e, s1)
  | (.ok _, s1) =>
    let s2 := { s1 with
                 generateCalls :=
                   (text, exaggeration, temperature, cfg_weight) :: s1.generateCalls }
    match env.generate text exaggeration temperature cfg_weight s2.engineConds with
    | .error e => (.error e, s2)
    | .ok wav =>
      match encode_output env wav output_format with
      | .error e => (.error e, s2)
      | .ok audio_base64 =>
        (.ok (.success audio_base64 output_format env.sr), s2)

/-- `handler(job)`, lines 90-160.  `Except.ok (r, s)` is a returned dict
with the final state; `Except.error e` is an exception that escaped the
handler (everything before the `try` at line 115 is unprotected: the
`float()` coercions, `output_format.lower()`, the `text[:100]` f-string,
and `load_model()`). -/
def handler (env : Env) (job : Job) (s : WorldState) :
    Except String (HandlerResult × WorldState) :=
  let text := (jget job.input "text").getD (.jstr "")
  if truthy text then
    match pyFloat env ((jget job.input "exaggeration").getD (.jnum (1/2))) with
    | none => .error "could not convert exaggeration to float"
    | some exaggeration =>
      match pyFloat env ((jget job.input "temperature").getD (.jnum (4/5))) with
      | none => .error "could not convert temperature to float"
      | some temperature =>
        match pyFloat env ((jget job.input "cfg").getD (.jnum (1/2))) with
        | none => .error "could not convert cfg to float"
        | some cfg_weight =>
          match pyLower ((jget job.input "output_format").getD (.jstr "wav")) with
          | none => .error "AttributeError: output_format has no lower()"
          | some output_format =>
            if sliceable text then
              let audio_url := (jget job.input "audio_url").getD .jnull
              match load_model env s with
              | .error e => .error e
              | .ok s1 =>
                match synth_pipeline env text audio_url exaggeration
                        temperature cfg_weight output_format s1 with
                | (.ok res, s2) => .ok (res, s2)
                | (.error e, s2) => .ok (.error e, s2)
            else
              .error "TypeError: text is not sliceable"
  else
    .ok (.error "No text provided", s)

/-- The state after the `load_model()` call at line 113 succeeds: unchanged
when the model was already loaded, else marked loaded. -/
def afterLoad (s : WorldState) : WorldState :=
  if s.modelLoaded then s else { s with modelLoaded := true }

/-- A concrete environment used to instantiate the theorems: every external
capability succeeds, the fetch answers HTTP 200 with an mpeg content type,
and the `float()` string parser rejects every string. -/
def envA : Env :=
  { fetch := fun _ => .ok { status := 200, contentType := "audio/mpeg", content := [1, 2, 3] },
    pyFloatStr := fun _ => none,
    loadResult := .ok (),
    tempName := fun ext => "/tmp/voice" ++ ext,
    prepare := fun _ _ => .ok (),
    generate := fun _ _ _ _ _ => .ok [0, 1],
    sr := 24000,
    encodeWav := fun w _ => .ok (w.map fun _ => 0),
    encodeMp3 := fun b _ => .ok (0 :: b),
    b64 := fun b => "b64:" ++ toString b.length }

/-- A state in which one voice reference is already cached and prepared. -/
def cachedState : WorldState :=
  { initState with
     voiceCache := [(JVal.jstr "http://x/v.mp3", "/tmp/voice.mp3")],
     engineConds := some ("/tmp/voice.mp3", 1/2) }

/-- A variant of `envA` whose fetch answers HTTP 404. -/
def envFail : Env :=
  { envA with fetch := fun _ => .ok { status := 404, contentType := "", content := [] } }

lemma truthy_jstr_of_ne (t : String) (h : t ≠ "") : truthy (.jstr t) = true := by
  simp [truthy, h]

lemma load_model_eq_ok (env : Env) (s : WorldState) (h : env.loadResult = .ok ()) :
    load_model env s = .ok (afterLoad s) := by
  unfold load_model afterLoad
  split <;> simp [h]

lemma afterLoad_voiceCache (s : WorldState) : (afterLoad s).voiceCache = s.voiceCache := by
  unfold afterLoad
  split <;> rfl

lemma afterLoad_engineConds (s : WorldState) : (afterLoad s).engineConds = s.engineConds := by
  unfold afterLoad
  split <;> rfl

lemma afterLoad_fetchCalls (s : WorldState) : (afterLoad s).fetchCalls = s.fetchCalls := by
  unfold afterLoad
  split <;> rfl

lemma afterLoad_prepareCalls (s : WorldState) : (afterLoad s).prepareCalls = s.prepareCalls := by
  unfold afterLoad
  split <;> rfl

lemma afterLoad_generateCalls (s : WorldState) : (afterLoad s).generateCalls = s.generateCalls := by
  unfold afterLoad
  split <;> rfl

lemma get_voice_ref_hit (env : Env) (url : JVal) (e : ℚ) (s : WorldState)
    (h : (s.voiceCache.lookup url).isSome = true) :
    get_voice_ref env url e s = (.ok (), s) := by
  unfold get_voice_ref
  simp [h]

/-- C5: for every cached URL key, a later `get_voice_ref` call with that key
and any exaggeration value returns immediately as a no-op (the state is
returned unchanged: no fetch, no re-preparation), even when the exaggeration
value differs from the one used at preparation time. -/
theorem cache_hit_ignores_exaggeration (env : Env) (url : JVal) (e : ℚ)
    (s : WorldState) (h : (s.voiceCache.lookup url).isSome = true) :
    get_voice_ref env url e s = (.ok (), s) :=
  get_voice_ref_hit env url e s h

theorem cache_hit_ignores_exaggeration_witness :
    get_voice_ref envA (JVal.jstr "http://x/v.mp3") (9/10) cachedState
      = (.ok (), cachedState) :=
  cache_hit_ignores_exaggeration envA (JVal.jstr "http://x/v.mp3") (9/10)
    cachedState rfl

/-- C6 counterexample: a content-type identifying wav does NOT take
precedence over an mp3 URL suffix.  The spec-worded order
(`classifyExtSpec`) yields `.wav` here, but the code (`classifyExt`) checks
its mp3 branch (content-type OR suffix) first and yields `.mp3`. -/
theorem classify_order_cex :
    classifyExtSpec "audio/wav" "http://example.com/voice.mp3" = ".wav" ∧
    classifyExt "audio/wav" "http://example.com/voice.mp3" = ".mp3" :=
  ⟨rfl, rfl⟩

/-- C6 (amended): the container format is classified by evidence per format,
mp3 first: if the content-type contains "mp3" or the query-stripped
lowercased URL ends in ".mp3", the format is mp3; only otherwise, if the
content-type contains "wav" or the URL ends in ".wav", the format is wav;
else the default is mp3.  An mp3 URL suffix therefore takes precedence over
a wav content-type. -/
theorem classify_order (content_type url : String) :
    (mp3Evidence content_type url = true → classifyExt content_type url = ".mp3") ∧
    (mp3Evidence content_type url = false → wavEvidence content_type url = true →
      classifyExt content_type url = ".wav") ∧
    (mp3Evidence content_type url = false → wavEvidence content_type url = false →
      classifyExt content_type url = ".mp3") := by
  refine ⟨fun h => ?_, fun h1 h2 => ?_, fun h1 h2 => ?_⟩
  · unfold mp3Evidence at h
    simp [classifyExt, h]
  · unfold mp3Evidence at h1
    unfold wavEvidence at h2
    simp [classifyExt, h1, h2]
  · unfold mp3Evidence at h1
    unfold wavEvidence at h2
    simp [classifyExt, h1, h2]

theorem classify_order_witness :
    classifyExt "audio/mp3" "http://x/a" = ".mp3" :=
  (classify_order "audio/mp3" "http://x/a").1 rfl

/-- C2: for every request whose `text` field is missing or the empty string,
the handler returns the structured `{error}` result (not a raise), and the
state is unchanged: no model load, no fetch, no preparation, no generate. -/
theorem handler_rejects_empty_text (env : Env) (job : Job) (s : WorldState)
    (h : jget job.input "text" = none ∨ jget job.input "text" = some (.jstr "")) :
    handler env job s = .ok (.error "No text provided", s) := by
  unfold handler
  rcases h with h | h <;> simp [h, truthy]

theorem handler_rejects_empty_text_witness :
    handler envA (Job.mk [("audio_url", JVal.jstr "http://x/v.mp3")]) initState
      = .ok (.error "No text provided", initState) :=
  handler_rejects_empty_text envA (Job.mk [("audio_url", JVal.jstr "http://x/v.mp3")])
    initState (Or.inl rfl)

/-- C4 counterexample: the request `{text: "hi", exaggeration: "abc"}`
passes the non-empty-text validation, yet the handler raises (the `float()`
coercion at line 99 sits before the `try` at line 115), instead of
returning the uniform `{error}` result. -/
theorem handler_uncaught_cex :
    handler envA (Job.mk [("text", JVal.jstr "hi"), ("exaggeration", JVal.jstr "abc")])
      initState = .error "could not convert exaggeration to float" :=
  rfl

/-- C4 (amended): failures raised inside the `try` block (fetch,
preparation, synthesis, encoding) are caught and converted to the uniform
`{error}` result, so the handler returns rather than raises whenever the
unprotected steps before the `try` — the three `float()` coercions,
`output_format.lower()`, the `text[:100]` f-string and `load_model()` —
all succeed. -/
theorem handler_no_raise_when_pretry_ok (env : Env) (job : Job) (s : WorldState)
    (hex : (pyFloat env ((jget job.input "exaggeration").getD (.jnum (1/2)))).isSome = true)
    (htemp : (pyFloat env ((jget job.input "temperature").getD (.jnum (4/5)))).isSome = true)
    (hcfg : (pyFloat env ((jget job.input "cfg").getD (.jnum (1/2)))).isSome = true)
    (hfmt : (pyLower ((jget job.input "output_format").getD (.jstr "wav"))).isSome = true)
    (hslice : sliceable ((jget job.input "text").getD (.jstr "")) = true)
    (hload : env.loadResult = .ok ()) :
    ∃ r s2, handler env job s = .ok (r, s2) := by
  rw [Option.isSome_iff_exists] at hex htemp hcfg hfmt
  obtain ⟨ex, hex⟩ := hex
  obtain ⟨tp, htemp⟩ := htemp
  obtain ⟨cf, hcfg⟩ := hcfg
  obtain ⟨fmt, hfmt⟩ := hfmt
  unfold handler
  simp only [hex, htemp, hcfg, hfmt, hslice, load_model_eq_ok env s hload, if_true]
  split
  case isTrue =>
    rcases hsp : synth_pipeline env ((jget job.input "text").getD (.jstr ""))
        ((jget job.input "audio_url").getD .jnull) ex tp cf fmt
        (afterLoad s) with ⟨r | e, s2⟩
    · exact ⟨_, _, rfl⟩
    · exact ⟨_, _, rfl⟩
  case isFalse =>
    exact ⟨.error "No text provided", s, rfl⟩

theorem handler_no_raise_when_pretry_ok_witness :
    ∃ r s2, handler envA (Job.mk [("text", JVal.jstr "hello")]) initState = .ok (r, s2) :=
  handler_no_raise_when_pretry_ok envA (Job.mk [("text", JVal.jstr "hello")]) initState
    rfl rfl rfl rfl rfl rfl

lemma get_voice_ref_miss_ok (env : Env) (u : String) (e : ℚ) (s : WorldState)
    (resp : FetchResponse)
    (hfresh : s.voiceCache.lookup (JVal.jstr u) = none)
    (hfetch : env.fetch u = .ok resp)
    (hstatus : resp.status < 400)
    (hprep : env.prepare (env.tempName (classifyExt resp.contentType u)) e = .ok ()) :
    get_voice_ref env (JVal.jstr u) e s =
      (.ok (), { s with
                  fetchCalls := u :: s.fetchCalls,
                  prepareCalls :=
                    (env.tempName (classifyExt resp.contentType u), e) :: s.prepareCalls,
                  engineConds := some (env.tempName (classifyExt resp.contentType u), e),
                  voiceCache :=
                    (JVal.jstr u, env.tempName (classifyExt resp.contentType u))
                      :: s.voiceCache }) := by
  have hni : ¬(400 ≤ resp.status ∧ resp.status < 600) := by omega
  unfold get_voice_ref
  simp only [hfresh, Option.isSome_none, Bool.false_eq_true, if_false, hfetch,
    hni, if_neg, hprep]

lemma get_voice_ref_fetch_fail (env : Env) (u : String) (e : ℚ) (s : WorldState)
    (hfresh : s.voiceCache.lookup (JVal.jstr u) = none)
    (hfail : (∃ msg, env.fetch u = .error msg) ∨
             ∃ resp, env.fetch u = .ok resp ∧ 400 ≤ resp.status ∧ resp.status < 600) :
    ∃ emsg, get_voice_ref env (JVal.jstr u) e s
      = (.error emsg, { s with fetchCalls := u :: s.fetchCalls }) := by
  unfold get_voice_ref
  simp only [hfresh, Option.isSome_none, Bool.false_eq_true, if_false]
  rcases hfail with ⟨msg, hm⟩ | ⟨resp, hr, h4, h6⟩
  · rw [hm]
    exact ⟨msg, rfl⟩
  · simp only [hr]
    rw [if_pos ⟨h4, h6⟩]
    exact ⟨_, rfl⟩

/-- C1: for a fixed url not yet cached, the first `get_voice_ref` call
fetches once, prepares once and records the key in `VOICE_CACHE`; a second
call with the same url (and any exaggeration) returns immediately with the
state unchanged: no further fetch and no further preparation. -/
theorem prepare_runs_once_per_url (env : Env) (u : String) (e e2 : ℚ)
    (s : WorldState) (resp : FetchResponse)
    (hfresh : s.voiceCache.lookup (JVal.jstr u) = none)
    (hfetch : env.fetch u = .ok resp)
    (hstatus : resp.status < 400)
    (hprep : env.prepare (env.tempName (classifyExt resp.contentType u)) e = .ok ()) :
    ∃ s1, get_voice_ref env (JVal.jstr u) e s = (.ok (), s1) ∧
      s1.fetchCalls = u :: s.fetchCalls ∧
      s1.prepareCalls
        = (env.tempName (classifyExt resp.contentType u), e) :: s.prepareCalls ∧
      s1.voiceCache.lookup (JVal.jstr u)
        = some (env.tempName (classifyExt resp.contentType u)) ∧
      get_voice_ref env (JVal.jstr u) e2 s1 = (.ok (), s1) := by
  refine ⟨_, get_voice_ref_miss_ok env u e s resp hfresh hfetch hstatus hprep,
    rfl, rfl, ?_, ?_⟩
  · simp [List.lookup]
  · apply get_voice_ref_hit
    simp [List.lookup]

theorem prepare_runs_once_per_url_witness :
    ∃ s1, get_voice_ref envA (JVal.jstr "http://x/v.mp3") (1/2) initState = (.ok (), s1) ∧
      s1.fetchCalls = "http://x/v.mp3" :: initState.fetchCalls ∧
      s1.prepareCalls
        = (envA.tempName (classifyExt "audio/mpeg" "http://x/v.mp3"), 1/2)
            :: initState.prepareCalls ∧
      s1.voiceCache.lookup (JVal.jstr "http://x/v.mp3")
        = some (envA.tempName (classifyExt "audio/mpeg" "http://x/v.mp3")) ∧
      get_voice_ref envA (JVal.jstr "http://x/v.mp3") (9/10) s1 = (.ok (), s1) :=
  prepare_runs_once_per_url envA "http://x/v.mp3" (1/2) (9/10) initState
    ⟨200, "audio/mpeg", [1, 2, 3]⟩ rfl rfl (by decide) rfl

lemma handler_eq_of_pretry (env : Env) (job : Job) (s : WorldState) (t : String)
    (ex tp cf : ℚ) (fmt : String)
    (ht : jget job.input "text" = some (.jstr t)) (htne : t ≠ "")
    (hex : pyFloat env ((jget job.input "exaggeration").getD (.jnum (1/2))) = some ex)
    (htemp : pyFloat env ((jget job.input "temperature").getD (.jnum (4/5))) = some tp)
    (hcfg : pyFloat env ((jget job.input "cfg").getD (.jnum (1/2))) = some cf)
    (hfmt : pyLower ((jget job.input "output_format").getD (.jstr "wav")) = some fmt)
    (hload : env.loadResult = .ok ()) :
    handler env job s =
      (match synth_pipeline env (.jstr t) ((jget job.input "audio_url").getD .jnull)
          ex tp cf fmt (afterLoad s) with
        | (.ok res, s2) => .ok (res, s2)
        | (.error e, s2) => .ok (.error e, s2)) := by
  unfold handler
  simp only [ht, Option.getD_some, hex, htemp, hcfg, hfmt,
    truthy_jstr_of_ne t htne, if_true, sliceable, load_model_eq_ok env s hload]

lemma synth_pipeline_no_url (env : Env) (text : JVal) (ex tp cf : ℚ) (fmt : String)
    (s : WorldState) (w : List ℚ)
    (hgen : env.generate text ex tp cf s.engineConds = .ok w) :
    synth_pipeline env text .jnull ex tp cf fmt s =
      (match encode_output env w fmt with
        | .error e => (.error e,
            { s with generateCalls := (text, ex, tp, cf) :: s.generateCalls })
        | .ok b => (.ok (.success b fmt env.sr),
            { s with generateCalls := (text, ex, tp, cf) :: s.generateCalls })) := by
  unfold synth_pipeline
  simp only [truthy, Bool.false_eq_true, if_false, hgen]

lemma encode_output_not_mp3 (env : Env) (w : List ℚ) (fmt : String) (wb : List Nat)
    (henc : env.encodeWav w env.sr = .ok wb) (hne : fmt ≠ "mp3") :
    encode_output env w fmt = .ok (env.b64 wb) := by
  unfold encode_output
  simp only [henc, if_neg hne]

/-- C3: for every request whose `audio_url` fetch fails (network failure or
a 4xx/5xx HTTP status), the handler returns the `{error}` result, and no
cache entry is created: `VOICE_CACHE` is unchanged by the failed request
(and no preparation and no generate happened). -/
theorem fetch_failure_leaves_cache_unchanged (env : Env) (job : Job) (s : WorldState)
    (t u : String) (ex tp cf : ℚ) (fmt : String)
    (ht : jget job.input "text" = some (.jstr t)) (htne : t ≠ "")
    (hurl : jget job.input "audio_url" = some (.jstr u)) (hune : u ≠ "")
    (hex : pyFloat env ((jget job.input "exaggeration").getD (.jnum (1/2))) = some ex)
    (htemp : pyFloat env ((jget job.input "temperature").getD (.jnum (4/5))) = some tp)
    (hcfg : pyFloat env ((jget job.input "cfg").getD (.jnum (1/2))) = some cf)
    (hfmt : pyLower ((jget job.input "output_format").getD (.jstr "wav")) = some fmt)
    (hload : env.loadResult = .ok ())
    (hfresh : s.voiceCache.lookup (JVal.jstr u) = none)
    (hfail : (∃ msg, env.fetch u = .error msg) ∨
             ∃ resp, env.fetch u = .ok resp ∧ 400 ≤ resp.status ∧ resp.status < 600) :
    ∃ emsg s2, handler env job s = .ok (.error emsg, s2) ∧
      s2.voiceCache = s.voiceCache ∧
      s2.prepareCalls = s.prepareCalls ∧
      s2.generateCalls = s.generateCalls := by
  rw [handler_eq_of_pretry env job s t ex tp cf fmt ht htne hex htemp hcfg hfmt hload]
  rw [hurl]
  simp only [Option.getD_some]
  have hfresh1 : ((afterLoad s).voiceCache.lookup (JVal.jstr u)) = none := by
    rw [afterLoad_voiceCache]
    exact hfresh
  obtain ⟨emsg, hgv⟩ := get_voice_ref_fetch_fail env u ex (afterLoad s) hfresh1 hfail
  unfold synth_pipeline
  simp only [truthy_jstr_of_ne u hune, if_true, hgv]
  refine ⟨emsg, _, rfl, ?_, ?_, ?_⟩
  · exact afterLoad_voiceCache s
  · exact afterLoad_prepareCalls s
  · exact afterLoad_generateCalls s

theorem fetch_failure_leaves_cache_unchanged_witness :
    ∃ emsg s2,
      handler envFail
        (Job.mk [("text", JVal.jstr "hi"), ("audio_url", JVal.jstr "http://x/missing.mp3")])
        initState = .ok (.error emsg, s2) ∧
      s2.voiceCache = initState.voiceCache ∧
      s2.prepareCalls = initState.prepareCalls ∧
      s2.generateCalls = initState.generateCalls :=
  fetch_failure_leaves_cache_unchanged envFail
    (Job.mk [("text", JVal.jstr "hi"), ("audio_url", JVal.jstr "http://x/missing.mp3")])
    initState "hi" "http://x/missing.mp3" (1/2) (4/5) (1/2) "wav"
    rfl (by decide) rfl (by decide) rfl rfl rfl rfl rfl rfl
    (Or.inr ⟨⟨404, "", []⟩, rfl, by decide, by decide⟩)

/-- C7: the output encoder always materializes the WAV container first (a
WAV-encoding failure fails the whole encode, whatever the target); if and
only if the target format is "mp3", the WAV container is re-encoded to mp3
at the fixed bitrate "192k"; the returned `audio_base64` is the base64 text
of the final container bytes (WAV bytes for non-mp3 targets, mp3 bytes for
mp3 targets). -/
theorem encoder_wav_first_mp3_iff (env : Env) (wav : List ℚ) (fmt : String) :
    (∀ e, env.encodeWav wav env.sr = .error e → encode_output env wav fmt = .error e) ∧
    (∀ wb, env.encodeWav wav env.sr = .ok wb →
      (fmt = "mp3" →
        encode_output env wav fmt = Except.map env.b64 (env.encodeMp3 wb "192k")) ∧
      (fmt ≠ "mp3" → encode_output env wav fmt = .ok (env.b64 wb))) := by
  refine ⟨fun e he => ?_, fun wb hwb => ⟨fun hm => ?_, fun hne => ?_⟩⟩
  · unfold encode_output
    simp only [he]
  · unfold encode_output
    simp only [hwb, if_pos hm]
    rcases hmp : env.encodeMp3 wb "192k" with e | mb <;> simp [Except.map, hmp]
  · exact encode_output_not_mp3 env wav fmt wb hwb hne

theorem encoder_wav_first_mp3_iff_witness :
    encode_output envA [0, 1] "mp3" = Except.map envA.b64 (envA.encodeMp3 [0, 0] "192k") :=
  ((encoder_wav_first_mp3_iff envA [0, 1] "mp3").2 [0, 0] rfl).1 rfl

/-- C9: for every request that succeeds with no `audio_url` and
output_format "wav", the result is the success shape with `format = "wav"`
and `sample_rate` equal to the engine's fixed rate `env.sr`, and
`audio_base64` is the base64 text of the WAV bytes. -/
theorem wav_success_shape (env : Env) (job : Job) (s : WorldState) (t : String)
    (ex tp cf : ℚ) (w : List ℚ) (wb : List Nat)
    (ht : jget job.input "text" = some (.jstr t)) (htne : t ≠ "")
    (hurl : jget job.input "audio_url" = none)
    (hex : pyFloat env ((jget job.input "exaggeration").getD (.jnum (1/2))) = some ex)
    (htemp : pyFloat env ((jget job.input "temperature").getD (.jnum (4/5))) = some tp)
    (hcfg : pyFloat env ((jget job.input "cfg").getD (.jnum (1/2))) = some cf)
    (hfmt : pyLower ((jget job.input "output_format").getD (.jstr "wav")) = some "wav")
    (hload : env.loadResult = .ok ())
    (hgen : env.generate (.jstr t) ex tp cf s.engineConds = .ok w)
    (henc : env.encodeWav w env.sr = .ok wb) :
    ∃ s2, handler env job s = .ok (.success (env.b64 wb) "wav" env.sr, s2) := by
  rw [handler_eq_of_pretry env job s t ex tp cf "wav" ht htne hex htemp hcfg hfmt hload]
  rw [hurl]
  simp only [Option.getD_none]
  have hgen1 : env.generate (.jstr t) ex tp cf (afterLoad s).engineConds = .ok w := by
    rw [afterLoad_engineConds]
    exact hgen
  rw [synth_pipeline_no_url env (.jstr t) ex tp cf "wav" (afterLoad s) w hgen1]
  rw [encode_output_not_mp3 env w "wav" wb henc (by decide)]
  exact ⟨_, rfl⟩

theorem wav_success_shape_witness :
    ∃ s2, handler envA
        (Job.mk [("text", JVal.jstr "hello"), ("output_format", JVal.jstr "wav")])
        initState = .ok (.success (envA.b64 [0, 0]) "wav" envA.sr, s2) :=
  wav_success_shape envA
    (Job.mk [("text", JVal.jstr "hello"), ("output_format", JVal.jstr "wav")])
    initState "hello" (1/2) (4/5) (1/2) [0, 1] [0, 0]
    rfl (by decide) rfl rfl rfl rfl rfl rfl rfl rfl

/-- C10: `output_format` is never validated against {"wav","mp3"}: for any
string whose lowercasing is not "mp3" (e.g. "OGG"), the handler produces
WAV-encoded bytes and echoes the lowercased string verbatim in the `format`
field, returning success rather than an error. -/
theorem format_echoed_without_validation (env : Env) (job : Job) (s : WorldState)
    (t f : String) (ex tp cf : ℚ) (w : List ℚ) (wb : List Nat)
    (ht : jget job.input "text" = some (.jstr t)) (htne : t ≠ "")
    (hurl : jget job.input "audio_url" = none)
    (hex : pyFloat env ((jget job.input "exaggeration").getD (.jnum (1/2))) = some ex)
    (htemp : pyFloat env ((jget job.input "temperature").getD (.jnum (4/5))) = some tp)
    (hcfg : pyFloat env ((jget job.input "cfg").getD (.jnum (1/2))) = some cf)
    (hf : jget job.input "output_format" = some (.jstr f))
    (hne : lowerStr f ≠ "mp3")
    (hload : env.loadResult = .ok ())
    (hgen : env.generate (.jstr t) ex tp cf s.engineConds = .ok w)
    (henc : env.encodeWav w env.sr = .ok wb) :
    ∃ s2, handler env job s = .ok (.success (env.b64 wb) (lowerStr f) env.sr, s2) := by
  have hfmt : pyLower ((jget job.input "output_format").getD (.jstr "wav"))
      = some (lowerStr f) := by
    rw [hf]
    rfl
  rw [handler_eq_of_pretry env job s t ex tp cf (lowerStr f) ht htne hex htemp hcfg
    hfmt hload]
  rw [hurl]
  simp only [Option.getD_none]
  have hgen1 : env.generate (.jstr t) ex tp cf (afterLoad s).engineConds = .ok w := by
    rw [afterLoad_engineConds]
    exact hgen
  rw [synth_pipeline_no_url env (.jstr t) ex tp cf (lowerStr f) (afterLoad s) w hgen1]
  rw [encode_output_not_mp3 env w (lowerStr f) wb henc hne]
  exact ⟨_, rfl⟩

theorem format_echoed_without_validation_witness :
    ∃ s2, handler envA
        (Job.mk [("text", JVal.jstr "hello"), ("output_format", JVal.jstr "OGG")])
        initState = .ok (.success (envA.b64 [0, 0]) "ogg" envA.sr, s2) :=
  format_echoed_without_validation envA
    (Job.mk [("text", JVal.jstr "hello"), ("output_format", JVal.jstr "OGG")])
    initState "hello" "OGG" (1/2) (4/5) (1/2) [0, 1] [0, 0]
    rfl (by decide) rfl rfl rfl rfl rfl (by decide) rfl rfl rfl

lemma synth_pipeline_generate_spec (env : Env) (text au : JVal) (ex tp cf : ℚ)
    (fmt : String) (s sb : WorldState)
    (hprep : (if truthy au then get_voice_ref env au ex s else (.ok (), s))
      = (.ok (), sb)) :
    ∃ res, synth_pipeline env text au ex tp cf fmt s
        = (res, { sb with generateCalls := (text, ex, tp, cf) :: sb.generateCalls }) ∧
      ∀ b fr sr2, res = .ok (.success b fr sr2) → fr = fmt := by
  unfold synth_pipeline
  simp only [hprep]
  rcases hg : env.generate text ex tp cf sb.engineConds with e | w
  · simp only [hg]
    refine ⟨.error e, rfl, ?_⟩
    intro b fr sr2 h
    simp at h
  · simp only [hg]
    rcases he : encode_output env w fmt with e2 | b0
    · simp only [he]
      refine ⟨.error e2, rfl, ?_⟩
      intro b fr sr2 h
      simp at h
    · simp only [he]
      refine ⟨.ok (.success b0 fmt env.sr), rfl, ?_⟩
      intro b fr sr2 h
      injection h with h1
      injection h1 with ha hb hc
      exact hb.symm

/-- C8: for every request, defaults are applied per omitted field —
exaggeration 0.5, temperature 0.8, cfg 0.5, output_format "wav" — in any
mixture of omitted and supplied fields, and the supplied or defaulted
numeric values are exactly the ones passed to the engine's `generate` call
(the head of the `generateCalls` log), on both the voice-reference branch
(when `get_voice_ref` succeeds, by fresh preparation or cache hit) and the
default-voice branch; any success response carries the resolved format. -/
theorem defaults_applied_and_passed (env : Env) (job : Job) (s : WorldState)
    (t : String) (ex tp cf : ℚ) (fmt : String)
    (ht : jget job.input "text" = some (.jstr t)) (htne : t ≠ "")
    (hex : jget job.input "exaggeration" = none ∧ ex = 1/2
         ∨ jget job.input "exaggeration" = some (.jnum ex))
    (htemp : jget job.input "temperature" = none ∧ tp = 4/5
         ∨ jget job.input "temperature" = some (.jnum tp))
    (hcfg : jget job.input "cfg" = none ∧ cf = 1/2
         ∨ jget job.input "cfg" = some (.jnum cf))
    (hfmt : jget job.input "output_format" = none ∧ fmt = "wav"
         ∨ ∃ f0, jget job.input "output_format" = some (.jstr f0) ∧ fmt = lowerStr f0)
    (hload : env.loadResult = .ok ())
    (hurl : truthy ((jget job.input "audio_url").getD .jnull) = false
         ∨ ∃ s1, get_voice_ref env ((jget job.input "audio_url").getD .jnull) ex
              (afterLoad s) = (.ok (), s1)) :
    ∃ r s2, handler env job s = .ok (r, s2) ∧
      s2.generateCalls.head? = some (JVal.jstr t, ex, tp, cf) ∧
      ∀ b fr sr2, r = HandlerResult.success b fr sr2 → fr = fmt := by
  have hex1 : pyFloat env ((jget job.input "exaggeration").getD (.jnum (1/2)))
      = some ex := by
    rcases hex with ⟨h, he⟩ | h
    · subst he; rw [h]; rfl
    · rw [h]; rfl
  have htemp1 : pyFloat env ((jget job.input "temperature").getD (.jnum (4/5)))
      = some tp := by
    rcases htemp with ⟨h, he⟩ | h
    · subst he; rw [h]; rfl
    · rw [h]; rfl
  have hcfg1 : pyFloat env ((jget job.input "cfg").getD (.jnum (1/2)))
      = some cf := by
    rcases hcfg with ⟨h, he⟩ | h
    · subst he; rw [h]; rfl
    · rw [h]; rfl
  have hfmt1 : pyLower ((jget job.input "output_format").getD (.jstr "wav"))
      = some fmt := by
    rcases hfmt with ⟨h, he⟩ | ⟨f0, h, he⟩
    · subst he; rw [h]; rfl
    · subst he; rw [h]; rfl
  rw [handler_eq_of_pretry env job s t ex tp cf fmt ht htne hex1 htemp1 hcfg1
    hfmt1 hload]
  have hprep : ∃ sb, (if truthy ((jget job.input "audio_url").getD .jnull)
      then get_voice_ref env ((jget job.input "audio_url").getD .jnull) ex (afterLoad s)
      else (.ok (), afterLoad s)) = (.ok (), sb) := by
    cases htr : truthy ((jget job.input "audio_url").getD .jnull)
    · exact ⟨afterLoad s, by simp [htr]⟩
    · rcases hurl with h | ⟨s1, hgv⟩
      · rw [h] at htr; cases htr
      · exact ⟨s1, by simp only [htr, if_true]; exact hgv⟩
  obtain ⟨sb, hprep⟩ := hprep
  obtain ⟨res, hsp, hfr⟩ := synth_pipeline_generate_spec env (.jstr t)
    ((jget job.input "audio_url").getD .jnull) ex tp cf fmt (afterLoad s) sb hprep
  rw [hsp]
  rcases res with e | r0
  · refine ⟨HandlerResult.error e, _, rfl, rfl, ?_⟩
    intro b fr sr2 h
    simp at h
  · refine ⟨r0, _, rfl, rfl, ?_⟩
    intro b fr sr2 h
    exact hfr b fr sr2 (by rw [h])

theorem defaults_applied_and_passed_witness :
    ∃ r s2,
      handler envA
        (Job.mk [("text", JVal.jstr "hello"), ("temperature", JVal.jnum (9/10)),
                 ("audio_url", JVal.jstr "http://x/v.mp3")])
        initState = .ok (r, s2) ∧
      s2.generateCalls.head? = some (JVal.jstr "hello", 1/2, 9/10, 1/2) ∧
      ∀ b fr sr2, r = HandlerResult.success b fr sr2 → fr = "wav" :=
  defaults_applied_and_passed envA
    (Job.mk [("text", JVal.jstr "hello"), ("temperature", JVal.jnum (9/10)),
             ("audio_url", JVal.jstr "http://x/v.mp3")])
    initState "hello" (1/2) (9/10) (1/2) "wav"
    rfl (by decide) (Or.inl ⟨rfl, rfl⟩) (Or.inr rfl) (Or.inl ⟨rfl, rfl⟩)
    (Or.inl ⟨rfl, rfl⟩) rfl (Or.inr ⟨_, rfl⟩)
